import Mathlib

/-!
Verification of the multi-model Bedrock chat adapter core
(src/streamlit/bedrock_chat_app.py, with the same dispatch logic appearing in
src/streamlit/accesskey_bedrock_chat_app.py).

The embedding below models, straight from the source:
  - the request-building branches of send_message_to_bedrock (lines 184-230),
  - extract_token_counts (lines 156-179),
  - the response-text extraction branches (lines 254-259),
  - the trace/performance record appends and the ClientError handler
    (lines 261-304),
  - the metrics aggregation of metrics_tab (lines 371-410),
  - the clear buttons of metrics_tab and trace_tab (lines 380-382, 475-477).

Modelling conventions: Python dict lookups that can raise KeyError/IndexError
return Except; dict.get with a default becomes Option.getD; response payloads
are records of the family-specific fields with Option marking field absence;
floating-point time and temperature values become rationals, and the Python
round(x, 2) call becomes round-half-even on rationals; the opaque remote call
is passed in as an Except value (its ClientError message or its parsed JSON
body), and wall-clock timing is passed in as the measured elapsed value.
Timestamps are omitted: no claim concerns them.
-/

namespace BedrockChat

/-- Character-list prefix test, used to model the Python `in` operator. -/
def isPre (needle hay : List Char) : Bool :=
  match needle, hay with
  | [], _ => true
  | _ :: _, [] => false
  | a :: as, b :: bs => a == b && isPre as bs

/-- Character-list substring test. -/
def subChars (needle : List Char) : List Char → Bool
  | [] => needle.isEmpty
  | c :: t => isPre needle (c :: t) || subChars needle t

/-- Models the Python expression `needle in hay` on strings. -/
def pyIn (needle hay : String) : Bool := subChars needle.data hay.data

/-- Chat message role; the app only ever stores user or assistant messages. -/
inductive Role where
  | user
  | assistant
  deriving DecidableEq, Repr

/-- One conversation message, as stored in st.session_state.messages. -/
structure Message where
  role : Role
  content : String
  deriving DecidableEq, Repr

/-- The `usage` sub-object of an Anthropic-family response body. -/
structure Usage where
  input_tokens : Option Int
  output_tokens : Option Int
  deriving DecidableEq, Repr

/-- The `amazon-bedrock-invocationMetrics` sub-object of a response body. -/
structure InvocationMetrics where
  inputTokenCount : Option Int
  outputTokenCount : Option Int
  deriving DecidableEq, Repr

/-- A parsed response body, restricted to the fields the app reads.
`none` models absence of the JSON field; an element of `content` or
`results` is the `text` (resp. `outputText`) field of that array entry,
with `none` modelling an entry that lacks the field. -/
structure ResponseBody where
  usage : Option Usage
  invocationMetrics : Option InvocationMetrics
  content : Option (List (Option String))
  generation : Option String
  results : Option (List (Option String))
  prompt : Option String
  deriving DecidableEq, Repr

/-- The response payload with every known field absent. -/
def emptyBody : ResponseBody := ⟨none, none, none, none, none, none⟩

/-- Python exceptions that the lookup chains in the source can raise. -/
inductive PyErr where
  | keyError
  | indexError
  deriving DecidableEq, Repr

/-- Provider-specific request payload built by send_message_to_bedrock,
one constructor per branch of the dispatch (lines 185-230). -/
inductive RequestBody where
  | anthropicBody (anthropic_version : String) (max_tokens : Nat) (temperature : ℚ)
      (messages : List (String × String))
  | llamaBody (prompt : String) (max_gen_len : Nat) (temperature : ℚ)
  | titanBody (inputText : String) (maxTokenCount : Nat) (temperature : ℚ) (topP : ℚ)
  deriving DecidableEq, Repr

/-- The role string stored in an Anthropic messages entry (line 189). -/
def roleString : Role → String
  | Role.user => "user"
  | Role.assistant => "assistant"

/-- The conversation list built by the loop at lines 187-190. -/
def anthropic_conversation (messages : List Message) : List (String × String) :=
  messages.foldl (fun conversation msg => conversation ++ [(roleString msg.role, msg.content)]) []

/-- The flattened prompt built by the loop at lines 200-206. -/
def llama_prompt (messages : List Message) : String :=
  (messages.foldl
    (fun prompt msg =>
      match msg.role with
      | Role.user => prompt ++ ("Human: " ++ msg.content ++ "\n")
      | Role.assistant => prompt ++ ("Assistant: " ++ msg.content ++ "\n"))
    "") ++ "Assistant: "

/-- The flattened inputText built by the loop at lines 215-221. -/
def titan_prompt (messages : List Message) : String :=
  (messages.foldl
    (fun prompt msg =>
      match msg.role with
      | Role.user => prompt ++ ("User: " ++ msg.content ++ "\n")
      | Role.assistant => prompt ++ ("Assistant: " ++ msg.content ++ "\n"))
    "") ++ "Assistant: "

/-- The request-building dispatch of send_message_to_bedrock (lines 184-230). -/
def build_request (model_id : String) (messages : List Message) (max_tokens : Nat)
    (temperature : ℚ) : RequestBody :=
  if pyIn "anthropic" model_id then
    RequestBody.anthropicBody "bedrock-2023-05-31" max_tokens temperature
      (anthropic_conversation messages)
  else if pyIn "meta.llama" model_id then
    RequestBody.llamaBody (llama_prompt messages) max_tokens temperature
  else
    RequestBody.titanBody (titan_prompt messages) max_tokens temperature (9 / 10)

/-- extract_token_counts (lines 156-179).  The Python try/except cannot fire
on this typed payload, so the function is total by construction; dict.get
with default 0 (resp. the empty string) becomes Option.getD. -/
def extract_token_counts (model_id : String) (response_body : ResponseBody) : Int × Int :=
  if pyIn "anthropic" model_id && response_body.usage.isSome then
    match response_body.usage with
    | some usage => (usage.input_tokens.getD 0, usage.output_tokens.getD 0)
    | none => (0, 0)
  else if pyIn "amazon" model_id && response_body.invocationMetrics.isSome then
    match response_body.invocationMetrics with
    | some metrics => (metrics.inputTokenCount.getD 0, metrics.outputTokenCount.getD 0)
    | none => (0, 0)
  else if pyIn "meta.llama" model_id then
    (Int.ofNat ((response_body.prompt.getD "").length / 4),
     Int.ofNat ((response_body.generation.getD "").length / 4))
  else
    (0, 0)

/-- The response-text extraction of send_message_to_bedrock (lines 254-259).
Each bracket lookup that Python would fail is an explicit error case. -/
def extract_text (model_id : String) (response_body : ResponseBody) : Except PyErr String :=
  if pyIn "anthropic" model_id then
    match response_body.content with
    | none => Except.error PyErr.keyError
    | some [] => Except.error PyErr.indexError
    | some (none :: _) => Except.error PyErr.keyError
    | some (some text :: _) => Except.ok text
  else if pyIn "meta.llama" model_id then
    match response_body.generation with
    | none => Except.error PyErr.keyError
    | some text => Except.ok text
  else
    match response_body.results with
    | none => Except.error PyErr.keyError
    | some [] => Except.error PyErr.indexError
    | some (none :: _) => Except.error PyErr.keyError
    | some (some text :: _) => Except.ok text

/-- The three request/response shaping conventions. -/
inductive ModelFamily where
  | anthropic
  | llama
  | titan
  deriving DecidableEq, Repr

/-- Family classification as performed by the request-building dispatch
(lines 185, 198, 213). -/
def model_family (model_id : String) : ModelFamily :=
  if pyIn "anthropic" model_id then ModelFamily.anthropic
  else if pyIn "meta.llama" model_id then ModelFamily.llama
  else ModelFamily.titan

/-- The family a built request payload belongs to. -/
def request_family : RequestBody → ModelFamily
  | RequestBody.anthropicBody _ _ _ _ => ModelFamily.anthropic
  | RequestBody.llamaBody _ _ _ => ModelFamily.llama
  | RequestBody.titanBody _ _ _ _ => ModelFamily.titan

/-- Family classification as performed by the response-text dispatch
(lines 254, 256, 258). -/
def extract_text_family (model_id : String) : ModelFamily :=
  if pyIn "anthropic" model_id then ModelFamily.anthropic
  else if pyIn "meta.llama" model_id then ModelFamily.llama
  else ModelFamily.titan

/-- Round-half-even to an integer, the tie-breaking rule of Python round. -/
def roundHalfEven (q : ℚ) : ℤ :=
  if q - ⌊q⌋ < 1 / 2 then ⌊q⌋
  else if q - ⌊q⌋ > 1 / 2 then ⌊q⌋ + 1
  else if Even ⌊q⌋ then ⌊q⌋ else ⌊q⌋ + 1

/-- Models the Python call round(q, 2). -/
def pyRound2 (q : ℚ) : ℚ := (roundHalfEven (q * 100) : ℚ) / 100

/-- The tokens_per_second expression of the performance record (line 287). -/
def tokens_per_second (total_tokens : Int) (elapsed_time : ℚ) : ℚ :=
  if elapsed_time > 0 then pyRound2 ((total_tokens : ℚ) / elapsed_time) else 0

/-- One entry of st.session_state.performance_metrics (lines 278-288). -/
structure PerformanceMetric where
  model : String
  query_length : Nat
  response_length : Nat
  input_tokens : Int
  output_tokens : Int
  total_tokens : Int
  response_time : ℚ
  tokens_per_second : ℚ
  deriving DecidableEq, Repr

/-- One entry of st.session_state.trace_logs: the success record of
lines 262-272 or the error record of lines 295-300. -/
inductive TraceLog where
  | success (model_id : String) (request : RequestBody) (response : ResponseBody)
      (elapsed_time : ℚ) (max_tokens : Nat) (temperature : ℚ)
  | clientError (model_id : String) (error : String) (request : Option RequestBody)
  deriving DecidableEq, Repr

/-- The session state the app mutates: conversation, trace log, metrics log. -/
structure SessionState where
  messages : List Message
  trace_logs : List TraceLog
  performance_metrics : List PerformanceMetric
  deriving DecidableEq, Repr

/-- The fixed fallback string returned by the ClientError handler (line 304). -/
def error_fallback : String :=
  "I encountered an error processing your request. Please check your AWS credentials and permissions."

/-- send_message_to_bedrock (lines 182-304).  The remote invoke_model call is
passed in as invoke_result (its ClientError message, or its parsed body) and
the measured wall-clock elapsed time as elapsed_time; selected_model is the
sidebar label the performance record stores.  Only ClientError is caught by
the except clause, so an extraction failure propagates with the state
untouched, which the error component of the returned pair records. -/
def send_message_to_bedrock (invoke_result : Except String ResponseBody) (elapsed_time : ℚ)
    (selected_model : String) (model_id : String) (messages : List Message)
    (max_tokens : Nat) (temperature : ℚ) (st : SessionState) :
    Except PyErr String × SessionState :=
  let request_body := build_request model_id messages max_tokens temperature
  let user_query :=
    match messages.getLast? with
    | some msg => msg.content
    | none => ""
  match invoke_result with
  | Except.error err_msg =>
      (Except.ok error_fallback,
        { st with trace_logs :=
            st.trace_logs ++ [TraceLog.clientError model_id err_msg (some request_body)] })
  | Except.ok response_body =>
      let counts := extract_token_counts model_id response_body
      match extract_text model_id response_body with
      | Except.error e => (Except.error e, st)
      | Except.ok response_text =>
          let trace := TraceLog.success model_id request_body response_body
            (pyRound2 elapsed_time) max_tokens temperature
          let perf : PerformanceMetric :=
            ⟨selected_model, user_query.length, response_text.length, counts.1, counts.2,
              counts.1 + counts.2, pyRound2 elapsed_time,
              tokens_per_second (counts.1 + counts.2) elapsed_time⟩
          (Except.ok response_text,
            { st with
                trace_logs := st.trace_logs ++ [trace],
                performance_metrics := st.performance_metrics ++ [perf] })

/-- The Clear Metrics button handler (lines 380-382). -/
def clear_metrics (st : SessionState) : SessionState :=
  { st with performance_metrics := [] }

/-- The Clear Trace Logs button handler (lines 475-477). -/
def clear_trace_logs (st : SessionState) : SessionState :=
  { st with trace_logs := [] }

/-- Arithmetic mean, as computed by DataFrame.mean over a column. -/
def mean (values : List ℚ) : ℚ := values.sum / (values.length : ℚ)

/-- The summary statistics block of metrics_tab (lines 388-410). -/
structure MetricsSummary where
  avg_response_time : ℚ
  avg_total_tokens : ℚ
  avg_tokens_per_second : ℚ
  delta_response_time : Option ℚ
  delta_total_tokens : Option ℚ
  delta_tokens_per_second : Option ℚ
  deriving DecidableEq, Repr

/-- metrics_tab aggregation (lines 374-410): none models the empty-log
no-data branch; each delta is shown only when the log has more than one
record, and is the last value of the column minus the column mean. -/
def metrics_summary (log : List PerformanceMetric) : Option MetricsSummary :=
  match log with
  | [] => none
  | _ :: _ =>
    let rt := log.map PerformanceMetric.response_time
    let tt := log.map (fun r => (r.total_tokens : ℚ))
    let tps := log.map PerformanceMetric.tokens_per_second
    some ⟨mean rt, mean tt, mean tps,
      if 1 < log.length then some (rt.getLastD 0 - mean rt) else none,
      if 1 < log.length then some (tt.getLastD 0 - mean tt) else none,
      if 1 < log.length then some (tps.getLastD 0 - mean tps) else none⟩

/-- Modelled from the spec: the family-specific text field path is present
in a response payload (used to compare extract_text against its stated
contract). -/
def textPathPresent (model_id : String) (response_body : ResponseBody) : Bool :=
  if pyIn "anthropic" model_id then
    match response_body.content with
    | some (some _ :: _) => true
    | _ => false
  else if pyIn "meta.llama" model_id then
    response_body.generation.isSome
  else
    match response_body.results with
    | some (some _ :: _) => true
    | _ => false

/-- Modelled from the spec: one Llama-family prompt line of a message. -/
def llamaLine (msg : Message) : String :=
  match msg.role with
  | Role.user => "Human: " ++ msg.content ++ "\n"
  | Role.assistant => "Assistant: " ++ msg.content ++ "\n"

/-- Modelled from the spec: one default-family inputText line of a message. -/
def titanLine (msg : Message) : String :=
  match msg.role with
  | Role.user => "User: " ++ msg.content ++ "\n"
  | Role.assistant => "Assistant: " ++ msg.content ++ "\n"

/-- Concatenation of a list of strings. -/
def joinAll : List String → String
  | [] => ""
  | s :: rest => s ++ joinAll rest

/-- A small two-message conversation used as a concrete test input. -/
def convHiYo : List Message := [⟨Role.user, "Hi"⟩, ⟨Role.assistant, "Yo"⟩]

/-- A one-record performance log used as a concrete test input. -/
def wlog1 : List PerformanceMetric := [⟨"Claude Instant", 5, 2, 3, 4, 7, 2, 4⟩]

theorem str_data_append (a b : String) : (a ++ b).data = a.data ++ b.data := rfl

theorem str_append_assoc (a b c : String) : a ++ b ++ c = a ++ (b ++ c) := by
  apply String.ext
  simp [str_data_append]

theorem str_append_empty (a : String) : a ++ "" = a := by
  apply String.ext
  simp [str_data_append]

theorem anthropic_conversation_foldl :
    ∀ (messages : List Message) (acc : List (String × String)),
      messages.foldl (fun conversation msg =>
          conversation ++ [(roleString msg.role, msg.content)]) acc
        = acc ++ messages.map (fun msg => (roleString msg.role, msg.content))
  | [], acc => by simp
  | msg :: rest, acc => by
    simp only [List.foldl_cons, List.map_cons]
    rw [anthropic_conversation_foldl rest]
    simp

theorem llama_prompt_foldl :
    ∀ (messages : List Message) (acc : String),
      messages.foldl (fun prompt msg =>
          match msg.role with
          | Role.user => prompt ++ ("Human: " ++ msg.content ++ "\n")
          | Role.assistant => prompt ++ ("Assistant: " ++ msg.content ++ "\n")) acc
        = acc ++ joinAll (messages.map llamaLine)
  | [], acc => by simp [joinAll, str_append_empty]
  | msg :: rest, acc => by
    simp only [List.foldl_cons, List.map_cons, joinAll]
    rw [llama_prompt_foldl rest]
    cases hr : msg.role <;> simp [llamaLine, hr, str_append_assoc]

theorem titan_prompt_foldl :
    ∀ (messages : List Message) (acc : String),
      messages.foldl (fun prompt msg =>
          match msg.role with
          | Role.user => prompt ++ ("User: " ++ msg.content ++ "\n")
          | Role.assistant => prompt ++ ("Assistant: " ++ msg.content ++ "\n")) acc
        = acc ++ joinAll (messages.map titanLine)
  | [], acc => by simp [joinAll, str_append_empty]
  | msg :: rest, acc => by
    simp only [List.foldl_cons, List.map_cons, joinAll]
    rw [titan_prompt_foldl rest]
    cases hr : msg.role <;> simp [titanLine, hr, str_append_assoc]

theorem model_family_anthropic {model_id : String}
    (h : model_family model_id = ModelFamily.anthropic) :
    pyIn "anthropic" model_id = true := by
  by_cases h1 : pyIn "anthropic" model_id
  · exact h1
  · by_cases h2 : pyIn "meta.llama" model_id <;> simp [model_family, h1, h2] at h

theorem model_family_llama {model_id : String}
    (h : model_family model_id = ModelFamily.llama) :
    pyIn "anthropic" model_id = false ∧ pyIn "meta.llama" model_id = true := by
  by_cases h1 : pyIn "anthropic" model_id
  · simp [model_family, h1] at h
  · by_cases h2 : pyIn "meta.llama" model_id
    · exact ⟨by simpa using h1, h2⟩
    · simp [model_family, h1, h2] at h

theorem model_family_titan {model_id : String}
    (h : model_family model_id = ModelFamily.titan) :
    pyIn "anthropic" model_id = false ∧ pyIn "meta.llama" model_id = false := by
  by_cases h1 : pyIn "anthropic" model_id
  · simp [model_family, h1] at h
  · by_cases h2 : pyIn "meta.llama" model_id
    · simp [model_family, h1, h2] at h
    · exact ⟨by simpa using h1, by simpa using h2⟩

/-- Claim C3: for every conversation and each model family, the request built
by the dispatch contains every message exactly once in the original order —
as role-preserving (role, content) entries of the messages array for the
Anthropic family, and as role-prefixed newline-terminated lines of the
flattened prompt (resp. inputText) with a trailing "Assistant: " cue for the
Llama and default families. -/
theorem C3_build_request_preserves_conversation (model_id : String)
    (messages : List Message) (max_tokens : Nat) (temperature : ℚ) :
    (model_family model_id = ModelFamily.anthropic →
      build_request model_id messages max_tokens temperature
        = RequestBody.anthropicBody "bedrock-2023-05-31" max_tokens temperature
            (messages.map (fun msg => (roleString msg.role, msg.content)))) ∧
    (model_family model_id = ModelFamily.llama →
      build_request model_id messages max_tokens temperature
        = RequestBody.llamaBody (joinAll (messages.map llamaLine) ++ "Assistant: ")
            max_tokens temperature) ∧
    (model_family model_id = ModelFamily.titan →
      build_request model_id messages max_tokens temperature
        = RequestBody.titanBody (joinAll (messages.map titanLine) ++ "Assistant: ")
            max_tokens temperature (9 / 10)) := by
  refine ⟨fun h => ?_, fun h => ?_, fun h => ?_⟩
  · have h1 := model_family_anthropic h
    simp only [build_request, h1, if_true]
    rw [anthropic_conversation, anthropic_conversation_foldl]
    simp
  · obtain ⟨h1, h2⟩ := model_family_llama h
    simp only [build_request, h1, h2, Bool.false_eq_true, if_false, if_true]
    rw [llama_prompt, llama_prompt_foldl]
    simp
  · obtain ⟨h1, h2⟩ := model_family_titan h
    simp only [build_request, h1, h2, Bool.false_eq_true, if_false]
    rw [titan_prompt, titan_prompt_foldl]
    simp

/-- Witness for C3 at concrete inputs of each family. -/
theorem C3_witness :
    (build_request "anthropic.claude-instant-v1" convHiYo 10 1
      = RequestBody.anthropicBody "bedrock-2023-05-31" 10 1
          (convHiYo.map (fun msg => (roleString msg.role, msg.content)))) ∧
    (build_request "meta.llama2-13b-chat-v1" convHiYo 10 1
      = RequestBody.llamaBody
          (joinAll (convHiYo.map llamaLine) ++ "Assistant: ") 10 1) ∧
    (build_request "amazon.titan-text-express-v1" convHiYo 10 1
      = RequestBody.titanBody
          (joinAll (convHiYo.map titanLine) ++ "Assistant: ") 10 1 (9 / 10)) :=
  ⟨(C3_build_request_preserves_conversation "anthropic.claude-instant-v1"
      convHiYo 10 1).1 (by decide),
   (C3_build_request_preserves_conversation "meta.llama2-13b-chat-v1"
      convHiYo 10 1).2.1 (by decide),
   (C3_build_request_preserves_conversation "amazon.titan-text-express-v1"
      convHiYo 10 1).2.2 (by decide)⟩

/-- Claim C7: for the single-message conversation user/"Hello" and any
Llama-family model identifier, the prompt of the built request is exactly
"Human: Hello\nAssistant: ". -/
theorem C7_llama_hello_prompt (model_id : String) (max_tokens : Nat) (temperature : ℚ)
    (h : model_family model_id = ModelFamily.llama) :
    build_request model_id [⟨Role.user, "Hello"⟩] max_tokens temperature
      = RequestBody.llamaBody "Human: Hello\nAssistant: " max_tokens temperature := by
  obtain ⟨h1, h2⟩ := model_family_llama h
  simp only [build_request, h1, h2, Bool.false_eq_true, if_false, if_true]
  exact congrArg (fun p => RequestBody.llamaBody p max_tokens temperature)
    (by decide : llama_prompt [⟨Role.user, "Hello"⟩] = "Human: Hello\nAssistant: ")

/-- Witness for C7 at a concrete Llama model identifier. -/
theorem C7_witness :
    build_request "meta.llama2-13b-chat-v1" [⟨Role.user, "Hello"⟩] 10 1
      = RequestBody.llamaBody "Human: Hello\nAssistant: " 10 1 :=
  C7_llama_hello_prompt "meta.llama2-13b-chat-v1" 10 1 (by decide)

/-- Claim C9: within a single invocation the family used to build the request
and the family used to extract the response text agree for every model
identifier: both dispatch chains test "anthropic", then "meta.llama", then
fall through to the default branch. -/
theorem C9_families_agree (model_id : String) (messages : List Message)
    (max_tokens : Nat) (temperature : ℚ) :
    request_family (build_request model_id messages max_tokens temperature)
      = extract_text_family model_id := by
  by_cases h1 : pyIn "anthropic" model_id
  · simp [build_request, extract_text_family, request_family, h1]
  · by_cases h2 : pyIn "meta.llama" model_id <;>
      simp [build_request, extract_text_family, request_family, h1, h2]

/-- Claim C10: clearing the performance-metrics log empties only that log,
and clearing the trace log empties only the trace log; the conversation
history is untouched by both. -/
theorem C10_clear_frame (st : SessionState) :
    (clear_metrics st).performance_metrics = [] ∧
    (clear_metrics st).trace_logs = st.trace_logs ∧
    (clear_metrics st).messages = st.messages ∧
    (clear_trace_logs st).trace_logs = [] ∧
    (clear_trace_logs st).performance_metrics = st.performance_metrics ∧
    (clear_trace_logs st).messages = st.messages :=
  ⟨rfl, rfl, rfl, rfl, rfl, rfl⟩

/-- Claim C1 counterexample: a completed invocation attempt whose remote call
succeeded but whose payload lacks the expected text field appends no
TraceRecord at all and propagates the lookup failure, so the claimed
one-record-per-attempt discipline fails at this input. -/
theorem C1_counterexample :
    (send_message_to_bedrock (Except.ok emptyBody) 1 "Amazon Titan Text Express"
        "amazon.titan-text-express-v1" [⟨Role.user, "Hi"⟩] 10 1
        ⟨[], [], []⟩).2.trace_logs.length = 0 ∧
    (send_message_to_bedrock (Except.ok emptyBody) 1 "Amazon Titan Text Express"
        "amazon.titan-text-express-v1" [⟨Role.user, "Hi"⟩] 10 1
        ⟨[], [], []⟩).1 = Except.error PyErr.keyError :=
  ⟨rfl, rfl⟩

/-- Claim C1 (amended): one TraceRecord is appended per invocation attempt
that fails at the remote call or succeeds with an extractable text field; on
success one PerformanceRecord is additionally appended and the text returned;
on remote-call failure no PerformanceRecord is appended and the fixed
fallback string is returned instead of propagating the failure; when the
remote call succeeds but text extraction fails, the error propagates and
neither log is touched. -/
theorem C1_amended_record_discipline (elapsed_time : ℚ) (selected_model model_id : String)
    (messages : List Message) (max_tokens : Nat) (temperature : ℚ) (st : SessionState) :
    (∀ err_msg : String,
      (send_message_to_bedrock (Except.error err_msg) elapsed_time selected_model model_id
          messages max_tokens temperature st).2.trace_logs.length
        = st.trace_logs.length + 1 ∧
      (send_message_to_bedrock (Except.error err_msg) elapsed_time selected_model model_id
          messages max_tokens temperature st).2.performance_metrics
        = st.performance_metrics ∧
      (send_message_to_bedrock (Except.error err_msg) elapsed_time selected_model model_id
          messages max_tokens temperature st).1 = Except.ok error_fallback) ∧
    (∀ (body : ResponseBody) (text : String),
      extract_text model_id body = Except.ok text →
      (send_message_to_bedrock (Except.ok body) elapsed_time selected_model model_id
          messages max_tokens temperature st).2.trace_logs.length
        = st.trace_logs.length + 1 ∧
      (send_message_to_bedrock (Except.ok body) elapsed_time selected_model model_id
          messages max_tokens temperature st).2.performance_metrics.length
        = st.performance_metrics.length + 1 ∧
      (send_message_to_bedrock (Except.ok body) elapsed_time selected_model model_id
          messages max_tokens temperature st).1 = Except.ok text) ∧
    (∀ (body : ResponseBody) (e : PyErr),
      extract_text model_id body = Except.error e →
      send_message_to_bedrock (Except.ok body) elapsed_time selected_model model_id
          messages max_tokens temperature st = (Except.error e, st)) := by
  refine ⟨fun err_msg => ?_, fun body text h => ?_, fun body e h => ?_⟩
  · refine ⟨?_, ?_, ?_⟩ <;> simp [send_message_to_bedrock]
  · refine ⟨?_, ?_, ?_⟩ <;> simp [send_message_to_bedrock, h]
  · simp [send_message_to_bedrock, h]

/-- Witness for the amended C1: remote failure appends one trace record;
well-formed success appends one performance record. -/
theorem C1_amended_witness :
    ((send_message_to_bedrock (Except.error "AccessDeniedException") 1 "Claude Instant"
        "anthropic.claude-instant-v1" [⟨Role.user, "Hello"⟩] 10 1
        ⟨[], [], []⟩).2.trace_logs.length
      = (⟨[], [], []⟩ : SessionState).trace_logs.length + 1) ∧
    ((send_message_to_bedrock (Except.ok ⟨none, none, some [some "Hi there"], none, none, none⟩)
        1 "Claude Instant" "anthropic.claude-instant-v1" [⟨Role.user, "Hello"⟩] 10 1
        ⟨[], [], []⟩).2.performance_metrics.length
      = (⟨[], [], []⟩ : SessionState).performance_metrics.length + 1) := by
  have h := C1_amended_record_discipline 1 "Claude Instant" "anthropic.claude-instant-v1"
    [⟨Role.user, "Hello"⟩] 10 1 ⟨[], [], []⟩
  exact ⟨(h.1 "AccessDeniedException").1,
    (h.2.1 ⟨none, none, some [some "Hi there"], none, none, none⟩ "Hi there" rfl).2.1⟩

theorem extract_text_ok_iff (model_id : String) (body : ResponseBody) :
    (∃ t, extract_text model_id body = Except.ok t) ↔ textPathPresent model_id body = true := by
  unfold extract_text textPathPresent
  by_cases h1 : pyIn "anthropic" model_id
  · simp only [h1, if_true]
    rcases hc : body.content with _ | lst
    · simp
    · rcases lst with _ | ⟨hd, tl⟩
      · simp
      · rcases hd with _ | t <;> simp
  · by_cases h2 : pyIn "meta.llama" model_id
    · simp only [h1, h2, Bool.false_eq_true, if_false, if_true]
      rcases hg : body.generation with _ | t <;> simp
    · simp only [h1, h2, Bool.false_eq_true, if_false]
      rcases hr : body.results with _ | lst
      · simp
      · rcases lst with _ | ⟨hd, tl⟩
        · simp
        · rcases hd with _ | t <;> simp

/-- Claim C2 counterexample: for an Anthropic-family identifier and a payload
missing the content/text path, extraction does fail, but the tracer does not
convert the failure into a logged error entry or the fallback message: the
error propagates and the trace log stays empty. -/
theorem C2_counterexample :
    extract_text "anthropic.claude-instant-v1" emptyBody = Except.error PyErr.keyError ∧
    (send_message_to_bedrock (Except.ok emptyBody) 1 "Claude Instant"
        "anthropic.claude-instant-v1" [⟨Role.user, "Hello"⟩] 10 1
        ⟨[], [], []⟩).1 ≠ Except.ok error_fallback ∧
    (send_message_to_bedrock (Except.ok emptyBody) 1 "Claude Instant"
        "anthropic.claude-instant-v1" [⟨Role.user, "Hello"⟩] 10 1
        ⟨[], [], []⟩).2.trace_logs = [] := by
  refine ⟨rfl, ?_, rfl⟩
  intro hc
  have h : (send_message_to_bedrock (Except.ok emptyBody) 1 "Claude Instant"
      "anthropic.claude-instant-v1" [⟨Role.user, "Hello"⟩] 10 1
      ⟨[], [], []⟩).1 = Except.error PyErr.keyError := rfl
  rw [h] at hc
  exact Except.noConfusion hc

/-- Claim C2 (amended): when the expected family-specific field path is
absent, text extraction fails with a lookup error; that failure is not
caught by the tracer (only ClientError is): it propagates out of
send_message_to_bedrock, with no trace entry appended and no fallback
message returned. -/
theorem C2_amended_extraction_error_propagates :
    (∀ (model_id : String) (body : ResponseBody),
      textPathPresent model_id body = false →
      ∃ e, extract_text model_id body = Except.error e) ∧
    (∀ (st : SessionState) (elapsed_time : ℚ) (selected_model model_id : String)
        (messages : List Message) (max_tokens : Nat) (temperature : ℚ)
        (body : ResponseBody) (e : PyErr),
      extract_text model_id body = Except.error e →
      send_message_to_bedrock (Except.ok body) elapsed_time selected_model model_id
          messages max_tokens temperature st = (Except.error e, st)) := by
  constructor
  · intro model_id body h
    rcases hcase : extract_text model_id body with e | t
    · exact ⟨e, rfl⟩
    · exfalso
      have hp := (extract_text_ok_iff model_id body).1 ⟨t, hcase⟩
      simp [h] at hp
  · intro st elapsed_time selected_model model_id messages max_tokens temperature body e h
    simp [send_message_to_bedrock, h]

/-- Witness for the amended C2 at a concrete malformed Anthropic payload. -/
theorem C2_amended_witness :
    (∃ e, extract_text "anthropic.claude-3-haiku-20240307-v1:0" emptyBody = Except.error e) ∧
    send_message_to_bedrock (Except.ok emptyBody) 2 "Claude 3 Haiku"
        "anthropic.claude-3-haiku-20240307-v1:0" [] 10 1 ⟨[], [], []⟩
      = (Except.error PyErr.keyError, ⟨[], [], []⟩) :=
  ⟨C2_amended_extraction_error_propagates.1 "anthropic.claude-3-haiku-20240307-v1:0" emptyBody
      (by decide),
   C2_amended_extraction_error_propagates.2 ⟨[], [], []⟩ 2 "Claude 3 Haiku"
      "anthropic.claude-3-haiku-20240307-v1:0" [] 10 1 emptyBody PyErr.keyError rfl⟩

/-- Claim C4 counterexample: a default-family identifier (matching neither the
Anthropic-style nor the Llama-style pattern) with the invocationMetrics
sub-object present: the token counts are not read, because the branch also
requires the substring "amazon" in the identifier. -/
theorem C4_counterexample :
    pyIn "anthropic" "mistral.mistral-large-2402-v1:0" = false ∧
    pyIn "meta.llama" "mistral.mistral-large-2402-v1:0" = false ∧
    (⟨none, some ⟨some 5, some 7⟩, none, none, none, none⟩
        : ResponseBody).invocationMetrics.isSome = true ∧
    extract_token_counts "mistral.mistral-large-2402-v1:0"
        ⟨none, some ⟨some 5, some 7⟩, none, none, none, none⟩ = (0, 0) ∧
    extract_token_counts "mistral.mistral-large-2402-v1:0"
        ⟨none, some ⟨some 5, some 7⟩, none, none, none, none⟩ ≠ (5, 7) := by
  decide

/-- Claim C4 (amended): for identifiers of the default family, the
inputTokenCount/outputTokenCount of a present amazon-bedrock-invocationMetrics
sub-object are read only when the identifier also contains the substring
"amazon"; every other default-family identifier yields (0, 0) even when the
sub-object is present. -/
theorem C4_amended_metrics_require_amazon (model_id : String) (body : ResponseBody)
    (h1 : pyIn "anthropic" model_id = false) (h2 : pyIn "meta.llama" model_id = false) :
    (∀ metrics : InvocationMetrics, body.invocationMetrics = some metrics →
      pyIn "amazon" model_id = true →
      extract_token_counts model_id body
        = (metrics.inputTokenCount.getD 0, metrics.outputTokenCount.getD 0)) ∧
    (pyIn "amazon" model_id = false → extract_token_counts model_id body = (0, 0)) := by
  constructor
  · intro metrics hm ha
    simp [extract_token_counts, h1, h2, ha, hm]
  · intro ha
    simp [extract_token_counts, h1, h2, ha]

/-- Witness for the amended C4: an amazon identifier reads the metrics, a
mistral identifier ignores them. -/
theorem C4_amended_witness :
    extract_token_counts "amazon.titan-text-express-v1"
        ⟨none, some ⟨some 5, some 7⟩, none, none, none, none⟩ = (5, 7) ∧
    extract_token_counts "mistral.mistral-large-2402-v1:0"
        ⟨none, some ⟨some 5, some 7⟩, none, none, none, none⟩ = (0, 0) := by
  have ht := C4_amended_metrics_require_amazon "amazon.titan-text-express-v1"
    ⟨none, some ⟨some 5, some 7⟩, none, none, none, none⟩ (by decide) (by decide)
  have hm := C4_amended_metrics_require_amazon "mistral.mistral-large-2402-v1:0"
    ⟨none, some ⟨some 5, some 7⟩, none, none, none, none⟩ (by decide) (by decide)
  exact ⟨ht.1 ⟨some 5, some 7⟩ rfl (by decide), hm.2 (by decide)⟩

/-- Claim C5: extract_token_counts is total by construction on the typed
payload (it returns a pair, never raises); on a payload with none of the
relevant fields present it returns (0, 0) for every model identifier, and on
Llama-family identifiers with the echoed prompt and generation fields
present it returns the floor of each length divided by four. -/
theorem C5_extract_token_counts_total (model_id : String) :
    (∀ body : ResponseBody, body.usage = none → body.invocationMetrics = none →
      body.prompt = none → body.generation = none →
      extract_token_counts model_id body = (0, 0)) ∧
    (∀ (body : ResponseBody) (p g : String),
      pyIn "anthropic" model_id = false → pyIn "amazon" model_id = false →
      pyIn "meta.llama" model_id = true →
      body.prompt = some p → body.generation = some g →
      extract_token_counts model_id body
        = (Int.ofNat (p.length / 4), Int.ofNat (g.length / 4))) := by
  constructor
  · intro body hu hm hp hg
    unfold extract_token_counts
    by_cases h1 : pyIn "anthropic" model_id <;>
      by_cases h2 : pyIn "amazon" model_id <;>
        by_cases h3 : pyIn "meta.llama" model_id <;>
          simp [h1, h2, h3, hu, hm, hp, hg]
  · intro body p g h1 h2 h3 hp hg
    simp [extract_token_counts, h1, h2, h3, hp, hg]

/-- Witness for C5: the empty payload yields (0, 0); a Llama payload with
echoed prompt and generation yields the length-quarter estimates. -/
theorem C5_witness :
    extract_token_counts "amazon.titan-text-express-v1" emptyBody = (0, 0) ∧
    extract_token_counts "meta.llama2-13b-chat-v1"
        ⟨none, none, none, some "Hello there", none, some "Human: Hi\nAssistant: "⟩
      = (Int.ofNat ("Human: Hi\nAssistant: ".length / 4),
         Int.ofNat ("Hello there".length / 4)) :=
  ⟨(C5_extract_token_counts_total "amazon.titan-text-express-v1").1 emptyBody rfl rfl rfl rfl,
   (C5_extract_token_counts_total "meta.llama2-13b-chat-v1").2
      ⟨none, none, none, some "Hello there", none, some "Human: Hi\nAssistant: "⟩
      "Human: Hi\nAssistant: " "Hello there" (by decide) (by decide) (by decide) rfl rfl⟩

/-- Claim C6 counterexample: the stored tokens_per_second is the quotient
rounded to two decimal places, not the exact quotient: at 100 tokens over 3
seconds the stored value differs from 100/3. -/
theorem C6_counterexample : tokens_per_second 100 3 ≠ (100 : ℚ) / 3 := by
  unfold tokens_per_second pyRound2 roundHalfEven
  norm_num

/-- Claim C6 (amended): the tokens_per_second value equals the quotient of
total tokens by elapsed time rounded to two decimal places when the elapsed
time is positive, and equals 0 when the elapsed time is 0; the rational
model makes a division error impossible. -/
theorem C6_amended_tokens_per_second (total_tokens : Int) (elapsed_time : ℚ) :
    (elapsed_time > 0 →
      tokens_per_second total_tokens elapsed_time
        = pyRound2 ((total_tokens : ℚ) / elapsed_time)) ∧
    (elapsed_time = 0 → tokens_per_second total_tokens elapsed_time = 0) := by
  constructor
  · intro h
    unfold tokens_per_second
    rw [if_pos h]
  · intro h
    unfold tokens_per_second
    rw [h]
    norm_num

/-- Witness for the amended C6 at concrete elapsed times 4 and 0. -/
theorem C6_amended_witness :
    tokens_per_second 100 4 = pyRound2 (((100 : Int) : ℚ) / 4) ∧
    tokens_per_second 100 0 = 0 :=
  ⟨(C6_amended_tokens_per_second 100 4).1 (by norm_num),
   (C6_amended_tokens_per_second 100 0).2 rfl⟩

/-- Claim C8: the aggregator returns none on the empty log and otherwise the
arithmetic means of response time, total tokens and tokens per second, with
each delta equal to the last value minus the mean exactly when the log has
more than one record; on the two-record log with total tokens 100 and 50 the
mean is 75 and the delta is -25. -/
theorem C8_metrics_summary_spec (log : List PerformanceMetric) :
    metrics_summary [] = none ∧
    (log ≠ [] → ∃ s, metrics_summary log = some s ∧
      s.avg_response_time
        = (log.map PerformanceMetric.response_time).sum / (log.length : ℚ) ∧
      s.avg_total_tokens
        = (log.map (fun r => (r.total_tokens : ℚ))).sum / (log.length : ℚ) ∧
      s.avg_tokens_per_second
        = (log.map PerformanceMetric.tokens_per_second).sum / (log.length : ℚ) ∧
      (1 < log.length →
        s.delta_response_time
          = some ((log.map PerformanceMetric.response_time).getLastD 0
              - s.avg_response_time) ∧
        s.delta_total_tokens
          = some ((log.map (fun r => (r.total_tokens : ℚ))).getLastD 0
              - s.avg_total_tokens) ∧
        s.delta_tokens_per_second
          = some ((log.map PerformanceMetric.tokens_per_second).getLastD 0
              - s.avg_tokens_per_second)) ∧
      (¬ 1 < log.length →
        s.delta_response_time = none ∧ s.delta_total_tokens = none ∧
        s.delta_tokens_per_second = none)) ∧
    (∃ s, metrics_summary
        [⟨"Amazon Titan Text Express", 5, 20, 60, 40, 100, 2, 50⟩,
         ⟨"Amazon Titan Text Express", 3, 10, 30, 20, 50, 1, 50⟩] = some s ∧
      s.avg_total_tokens = 75 ∧ s.delta_total_tokens = some (-25)) := by
  refine ⟨rfl, fun hne => ?_, ?_⟩
  · match log, hne with
    | r :: rest, _ =>
      refine ⟨_, rfl, ?_, ?_, ?_, fun hlen => ?_, fun hlen => ?_⟩
      · simp [mean, List.length_map]
      · simp [mean, List.length_map]
      · simp [mean, List.length_map]
      · have hr : rest ≠ [] := fun hrest => by simp [hrest] at hlen
        refine ⟨?_, ?_, ?_⟩ <;> simp [hlen, hr]
      · have hr : rest = [] := by
          rcases rest with _ | ⟨a, t⟩
          · rfl
          · exfalso
            apply hlen
            simp only [List.length_cons]
            omega
        refine ⟨?_, ?_, ?_⟩ <;> simp [hlen, hr]
  · refine ⟨_, rfl, ?_, ?_⟩
    · norm_num [mean]
    · norm_num [mean, List.getLastD]

/-- Witness for C8 on a concrete one-record log. -/
theorem C8_witness :
    wlog1 ≠ [] ∧
    (∃ s, metrics_summary wlog1 = some s ∧
      s.avg_response_time
        = (wlog1.map PerformanceMetric.response_time).sum / (wlog1.length : ℚ) ∧
      s.avg_total_tokens
        = (wlog1.map (fun r => (r.total_tokens : ℚ))).sum / (wlog1.length : ℚ) ∧
      s.avg_tokens_per_second
        = (wlog1.map PerformanceMetric.tokens_per_second).sum / (wlog1.length : ℚ) ∧
      (1 < wlog1.length →
        s.delta_response_time
          = some ((wlog1.map PerformanceMetric.response_time).getLastD 0
              - s.avg_response_time) ∧
        s.delta_total_tokens
          = some ((wlog1.map (fun r => (r.total_tokens : ℚ))).getLastD 0
              - s.avg_total_tokens) ∧
        s.delta_tokens_per_second
          = some ((wlog1.map PerformanceMetric.tokens_per_second).getLastD 0
              - s.avg_tokens_per_second)) ∧
      (¬ 1 < wlog1.length →
        s.delta_response_time = none ∧ s.delta_total_tokens = none ∧
        s.delta_tokens_per_second = none)) :=
  ⟨by simp [wlog1], (C8_metrics_summary_spec wlog1).2.1 (by simp [wlog1])⟩

end BedrockChat
